import Mathlib

/-!
Verification of the sync_file_system drive backend core:
the local-to-remote syncer (`LocalToRemoteSyncer`) and the sync engine
(`SyncEngine`).  The definitions below are a shallow embedding of the
C++ sources; external collaborators that are not part of the sources
(the metadata database internals, the folder creator, the Drive error
code translation) are modelled from the design document and marked as
such in their doc comments.
-/

namespace DriveBackend

/-- Sync file types, mirroring `SyncFileType` (UNKNOWN / FILE / DIRECTORY). -/
inductive SyncFileType where
  | unknown
  | file
  | directory
deriving DecidableEq, Repr, Inhabited

/-- Change kind of a `FileChange` (ADD_OR_UPDATE / DELETE). -/
inductive ChangeType where
  | addOrUpdate
  | del
deriving DecidableEq, Repr, Inhabited

/-- Mirrors `FileChange`: a local filesystem change with a change kind and a file type. -/
structure FileChange where
  change : ChangeType
  fileType : SyncFileType
deriving DecidableEq, Repr, Inhabited

/-- Mirrors `FileChange::IsDelete()`. -/
def FileChange.IsDelete (c : FileChange) : Bool := c.change == ChangeType.del

/-- Mirrors `FileChange::IsAddOrUpdate()`. -/
def FileChange.IsAddOrUpdate (c : FileChange) : Bool := c.change == ChangeType.addOrUpdate

/-- Mirrors `FileChange::IsFile()`. -/
def FileChange.IsFile (c : FileChange) : Bool := c.fileType == SyncFileType.file

/-- Mirrors `FileChange::IsDirectory()`. -/
def FileChange.IsDirectory (c : FileChange) : Bool := c.fileType == SyncFileType.directory

/-- Mirrors `SyncFileMetadata` (only the `file_type` member is consulted by the syncer). -/
structure SyncFileMetadata where
  fileType : SyncFileType
deriving DecidableEq, Repr, Inhabited

/-- Mirrors the anonymous-namespace helper `IsLocalFileMissing` in
`local_to_remote_syncer.cc`. -/
def IsLocalFileMissing (localMetadata : SyncFileMetadata) (localChange : FileChange) : Bool :=
  localMetadata.fileType == SyncFileType.unknown || localChange.IsDelete

/-- Sync status codes (`SyncStatusCode`), restricted to the constructors the
embedded code paths mention. -/
inductive SyncStatusCode where
  | ok
  | retry
  | fileBusy
  | unknownOrigin
  | failed
  | networkError
  | abort
  | authenticationFailed
  | accessForbidden
  | serviceTemporarilyUnavailable
  | noChangeToSync
  | fileErrorNotFound
  | hasConflict
  | dbCorruption
  | dbIOError
  | dbFailed
deriving DecidableEq, Repr, Inhabited

/-- Drive API error codes (`google_apis::GDataErrorCode`), restricted to the
constructors the embedded code paths mention. -/
inductive GDataErrorCode where
  | httpSuccess
  | httpCreated
  | httpNoContent
  | httpNotFound
  | httpPrecondition
  | httpConflict
  | httpForbidden
  | httpUnauthorized
  | noConnection
  | otherError
deriving DecidableEq, Repr, Inhabited

/-- Modelled from the spec: `GDataErrorCodeToSyncStatusCode` lives in
`drive_backend_util.cc`, which is not among the sources.  The embedding maps
HTTP success classes to `ok` and every failure to a distinct non-`ok` code,
following the spec's error taxonomy (not-found, version-tag conflict,
authentication, network). -/
def GDataErrorCodeToSyncStatusCode : GDataErrorCode → SyncStatusCode
  | GDataErrorCode.httpSuccess => SyncStatusCode.ok
  | GDataErrorCode.httpCreated => SyncStatusCode.ok
  | GDataErrorCode.httpNoContent => SyncStatusCode.ok
  | GDataErrorCode.httpNotFound => SyncStatusCode.fileErrorNotFound
  | GDataErrorCode.httpPrecondition => SyncStatusCode.hasConflict
  | GDataErrorCode.httpConflict => SyncStatusCode.hasConflict
  | GDataErrorCode.httpForbidden => SyncStatusCode.accessForbidden
  | GDataErrorCode.httpUnauthorized => SyncStatusCode.authenticationFailed
  | GDataErrorCode.noConnection => SyncStatusCode.networkError
  | GDataErrorCode.otherError => SyncStatusCode.failed

/-- Remote file kind (`FileKind`: FILE_KIND_FILE / FILE_KIND_FOLDER). -/
inductive FileKind where
  | file
  | folder
deriving DecidableEq, Repr, Inhabited

/-- Mirrors `FileDetails` from the metadata database protocol buffer: the
last-synchronized snapshot of a remote object. -/
structure FileDetails where
  title : String := ""
  fileKind : FileKind := FileKind.file
  md5 : String := ""
  etag : String := ""
  missing : Bool := false
  parentFolderIds : List String := []
deriving DecidableEq, Repr, Inhabited

/-- Modelled from the spec: `HasFileAsParent` lives in `drive_backend_util.cc`,
which is not among the sources; it asks whether `fileId` is one of the parent
folder ids recorded in the details. -/
def HasFileAsParent (details : FileDetails) (fileId : String) : Bool :=
  details.parentFolderIds.contains fileId

/-- Mirrors `FileTracker`: a node of the locally maintained mirror of the
remote tree. -/
structure FileTracker where
  trackerId : Nat := 0
  parentTrackerId : Nat := 0
  fileId : String := ""
  active : Bool := false
  dirty : Bool := false
  hasSyncedDetails : Bool := false
  syncedDetails : FileDetails := {}
deriving DecidableEq, Repr, Inhabited

/-- Mirrors `FileMetadata`: the latest known remote state of one object. -/
structure FileMetadata where
  fileId : String := ""
  details : FileDetails := {}
deriving DecidableEq, Repr, Inhabited

/-- Mirrors the part of `google_apis::FileResource` the syncer consumes: the
identity and title of a remote object returned by the Drive API. -/
structure FileResource where
  fileId : String := ""
  title : String := ""
deriving DecidableEq, Repr, Inhabited

/-- Modelled from the spec: the metadata database (its implementation is not
among the sources) is abstracted to the tracker forest it stores. -/
structure MetadataDatabase where
  trackers : List FileTracker := []
deriving DecidableEq, Repr, Inhabited

/-- Modelled from the spec: `update_by_deleted_remote_file(file_id)` reflects a
remote deletion in the store; afterwards the tracker bound to that remote
object is absent. -/
def MetadataDatabase.updateByDeletedRemoteFile (fileId : String)
    (db : MetadataDatabase) : MetadataDatabase :=
  { trackers := db.trackers.filter (fun t => t.fileId ≠ fileId) }

/-- Modelled from the spec: `replace_active_tracker_with_new_resource` makes a
new tracker for the uploaded resource the active tracker for its parent+title
slot, deactivating any previous active tracker of that slot. -/
def MetadataDatabase.replaceActiveTrackerWithNewResource
    (parentTrackerId : Nat) (entry : FileResource)
    (db : MetadataDatabase) : MetadataDatabase :=
  let deactivated := db.trackers.map (fun t =>
    if t.parentTrackerId == parentTrackerId && t.syncedDetails.title == entry.title
    then { t with active := false } else t)
  { trackers :=
      deactivated ++
        [{ trackerId := 0, parentTrackerId := parentTrackerId,
           fileId := entry.fileId, active := true, dirty := false,
           hasSyncedDetails := true,
           syncedDetails := { title := entry.title } }] }

/-- Modelled from the spec: `update_tracker(id, details)` refreshes the named
tracker's synchronized snapshot and clears its dirty mark. -/
def MetadataDatabase.updateTracker (trackerId : Nat) (details : FileDetails)
    (db : MetadataDatabase) : MetadataDatabase :=
  { trackers := db.trackers.map (fun t =>
      if t.trackerId == trackerId
      then { t with syncedDetails := details, hasSyncedDetails := true, dirty := false }
      else t) }

/-- Modelled from the spec: on `ActivationPending` the tracker bound to
`fileId` becomes the active tracker; on failure the store is left unchanged. -/
def MetadataDatabase.activateTrackerByFileID (fileId : String)
    (db : MetadataDatabase) : MetadataDatabase :=
  { trackers := db.trackers.map (fun t =>
      if t.fileId == fileId then { t with active := true } else t) }

/-- Result of `MetadataDatabase::TryActivateTracker`. -/
inductive ActivationStatus where
  | activationPending
  | activationFailedAnotherActiveTracker
deriving DecidableEq, Repr, Inhabited

/-- Number of active trackers claiming the parent+title slot: the spec's
invariant is that exactly one active tracker may claim a given slot. -/
def MetadataDatabase.activeCountForSlot (db : MetadataDatabase)
    (parentTrackerId : Nat) (title : String) : Nat :=
  db.trackers.countP (fun t =>
    t.active && t.parentTrackerId == parentTrackerId && t.syncedDetails.title == title)

/-- Observable steps of one syncer run: remote Drive calls and metadata
database operations, in issue order. -/
inductive Event where
  | deleteResource (fileId etag : String)
  | uploadExistingFile (fileId etag : String)
  | uploadNewFile (parentFolderId title : String)
  | createFolder (parentFolderId title : String)
  | getFileResource (fileId : String)
  | removeResourceFromDirectory (parentFolderId fileId : String)
  | findNearestActiveAncestorQuery
  | findTrackerByIDQuery (trackerId : Nat)
  | findFileByFileIDQuery (fileId : String)
  | updateByDeletedRemoteFile (fileId : String)
  | updateByFileResource (fileId : String)
  | updateTracker (trackerId : Nat)
  | replaceActiveTrackerWithNewResource (parentTrackerId : Nat) (fileId : String)
  | tryActivateTracker (parentTrackerId : Nat) (fileId : String)
deriving DecidableEq, Repr, Inhabited

/-- Remote mutations are the Drive calls that change remote state: delete,
uploads, folder creation and detaching from a directory. -/
def Event.isRemoteMutation : Event → Bool
  | Event.deleteResource _ _ => true
  | Event.uploadExistingFile _ _ => true
  | Event.uploadNewFile _ _ => true
  | Event.createFolder _ _ => true
  | Event.removeResourceFromDirectory _ _ => true
  | _ => false

/-- Whether the event is a remote `DeleteResource` call. -/
def Event.isRemoteDelete : Event → Bool
  | Event.deleteResource _ _ => true
  | _ => false

/-- Whether the event is a metadata-store mutation. -/
def Event.isDbMutation : Event → Bool
  | Event.updateByDeletedRemoteFile _ => true
  | Event.updateByFileResource _ => true
  | Event.updateTracker _ => true
  | Event.replaceActiveTrackerWithNewResource _ _ => true
  | Event.tryActivateTracker _ _ => true
  | _ => false

/-- Injected outcomes for every asynchronous collaborator call a single run
can make (each call site fires at most once per run), playing the role of the
completion callbacks' arguments. -/
structure Env where
  findNearestActiveAncestor : Option (FileTracker × List String) := none
  findTrackerByID : Nat → Option FileTracker := fun _ => none
  findFileByFileID : String → Option FileMetadata := fun _ => none
  deleteResourceError : GDataErrorCode := GDataErrorCode.httpSuccess
  updateByDeletedRemoteFileStatus : SyncStatusCode := SyncStatusCode.ok
  updateByFileResourceStatus : SyncStatusCode := SyncStatusCode.ok
  updateTrackerStatus : SyncStatusCode := SyncStatusCode.ok
  replaceActiveTrackerStatus : SyncStatusCode := SyncStatusCode.ok
  localFileMD5 : String := ""
  uploadExistingError : GDataErrorCode := GDataErrorCode.httpSuccess
  uploadExistingEntry : Option FileResource := none
  uploadNewError : GDataErrorCode := GDataErrorCode.httpSuccess
  uploadNewEntry : Option FileResource := none
  getFileError : GDataErrorCode := GDataErrorCode.httpSuccess
  getFileEntry : Option FileResource := none
  folderCreatorFileId : String := ""
  folderCreatorStatus : SyncStatusCode := SyncStatusCode.ok
  folderCreatorDbEffect : MetadataDatabase → MetadataDatabase := id
  tryActivateResult : ActivationStatus := ActivationStatus.activationPending
  tryActivateCallbackStatus : SyncStatusCode := SyncStatusCode.ok
  removeFromDirectoryError : GDataErrorCode := GDataErrorCode.httpSuccess

/-- Sync actions reported to file status observers (`SyncAction`). -/
inductive SyncAction where
  | none
  | added
  | updated
  | deleted
deriving DecidableEq, Repr, Inhabited

/-- Mutable fields of a `LocalToRemoteSyncer` threaded through the
continuation chain, together with the accumulated event trace and the
metadata store. -/
structure SyncerState where
  localChange : FileChange
  localIsMissing : Bool
  urlPath : List String
  syncAction : SyncAction := SyncAction.none
  needsRemoteChangeListing : Bool := false
  remoteFileTracker : Option FileTracker := none
  remoteParentFolderTracker : Option FileTracker := none
  targetPath : List String := []
  db : MetadataDatabase := {}
  trace : List Event := []

/-- Outcome of one completed syncer run. -/
structure RunResult where
  status : SyncStatusCode
  syncAction : SyncAction
  needsRemoteChangeListing : Bool
  trace : List Event
  db : MetadataDatabase
  targetPath : List String

/-- Append one observable event to the run's trace. -/
def SyncerState.emit (s : SyncerState) (e : Event) : SyncerState :=
  { s with trace := s.trace ++ [e] }

/-- Remote mutations issued during the run, in order. -/
def RunResult.remoteOps (r : RunResult) : List Event :=
  r.trace.filter Event.isRemoteMutation

/-- Metadata-store mutations issued during the run, in order. -/
def RunResult.dbOps (r : RunResult) : List Event :=
  r.trace.filter Event.isDbMutation

/-- Mirrors `fileapi::VirtualPath::BaseName` on the component representation
of a virtual path. -/
def baseName (p : List String) : String :=
  (p.getLast?).getD ""

/-- Whether `anc` is an initial segment of `p` (the ancestor path lies on the
way to the target); mirrors the success condition of
`FilePath::AppendRelativePath`. -/
def pathUnder : List String → List String → Bool
  | [], _ => true
  | _ :: _, [] => false
  | a :: as, b :: bs => a == b && pathUnder as bs

namespace LocalToRemoteSyncer

/-- Completion continuations bound by `base::Bind` at the `DeleteRemoteFile`
call sites. -/
abbrev Cb := SyncerState → SyncStatusCode → RunResult

/-- Mirrors a direct `SyncTaskManager::NotifyTaskDone` completion (the early
returns of `RunExclusive` that bypass `SyncCompleted`). -/
def notifyTaskDone (s : SyncerState) (status : SyncStatusCode) : RunResult :=
  { status := status, syncAction := s.syncAction,
    needsRemoteChangeListing := s.needsRemoteChangeListing,
    trace := s.trace, db := s.db, targetPath := s.targetPath }

/-- Mirrors `LocalToRemoteSyncer::SyncCompleted`. -/
def syncCompleted (s : SyncerState) (status : SyncStatusCode) : RunResult :=
  let status :=
    if status = SyncStatusCode.ok ∧ s.targetPath ≠ s.urlPath
    then SyncStatusCode.retry else status
  let status :=
    if s.needsRemoteChangeListing then SyncStatusCode.fileBusy else status
  notifyTaskDone s status

/-- Mirrors `LocalToRemoteSyncer::CompleteWithRetryStatus`. -/
def completeWithRetryStatus (s : SyncerState) (status : SyncStatusCode) : RunResult :=
  syncCompleted s (if status = SyncStatusCode.ok then SyncStatusCode.retry else status)

/-- Mirrors `LocalToRemoteSyncer::DidDeleteRemoteFile`. -/
def didDeleteRemoteFile (env : Env) (cb : Cb) (s : SyncerState)
    (error : GDataErrorCode) : RunResult :=
  let status := GDataErrorCodeToSyncStatusCode error
  if status ≠ SyncStatusCode.ok ∧
      error ≠ GDataErrorCode.httpNotFound ∧
      error ≠ GDataErrorCode.httpPrecondition ∧
      error ≠ GDataErrorCode.httpConflict then
    cb s status
  else if error = GDataErrorCode.httpNotFound then
    let fid := (s.remoteFileTracker.getD default).fileId
    let s := s.emit (Event.updateByDeletedRemoteFile fid)
    let s := { s with db := MetadataDatabase.updateByDeletedRemoteFile fid s.db }
    cb s env.updateByDeletedRemoteFileStatus
  else
    cb s SyncStatusCode.ok

/-- Mirrors `LocalToRemoteSyncer::DeleteRemoteFile`. -/
def deleteRemoteFile (env : Env) (cb : Cb) (s : SyncerState) : RunResult :=
  let s := { s with syncAction := SyncAction.deleted }
  let t := s.remoteFileTracker.getD default
  let s := s.emit (Event.deleteResource t.fileId t.syncedDetails.etag)
  didDeleteRemoteFile env cb s env.deleteResourceError

/-- Mirrors `LocalToRemoteSyncer::DidGetRemoteMetadata`. -/
def didGetRemoteMetadata (env : Env) (fileId : String) (s : SyncerState)
    (error : GDataErrorCode) (entry : Option FileResource) : RunResult :=
  if error = GDataErrorCode.httpNotFound then
    let s := s.emit (Event.updateByDeletedRemoteFile fileId)
    let s := { s with db := MetadataDatabase.updateByDeletedRemoteFile fileId s.db }
    completeWithRetryStatus s env.updateByDeletedRemoteFileStatus
  else
    let status := GDataErrorCodeToSyncStatusCode error
    if status ≠ SyncStatusCode.ok then
      syncCompleted s status
    else
      match entry with
      | none => syncCompleted s SyncStatusCode.failed
      | some entry =>
          let s := s.emit (Event.updateByFileResource entry.fileId)
          completeWithRetryStatus s env.updateByFileResourceStatus

/-- Mirrors `LocalToRemoteSyncer::UpdateRemoteMetadata`. -/
def updateRemoteMetadata (env : Env) (fileId : String) (s : SyncerState) : RunResult :=
  let s := s.emit (Event.getFileResource fileId)
  didGetRemoteMetadata env fileId s env.getFileError env.getFileEntry

/-- Mirrors `LocalToRemoteSyncer::DidUpdateDatabaseForUploadExistingFile`. -/
def didUpdateDatabaseForUploadExistingFile (env : Env) (s : SyncerState)
    (status : SyncStatusCode) : RunResult :=
  if status ≠ SyncStatusCode.ok then
    syncCompleted s status
  else
    let t := s.remoteFileTracker.getD default
    let s := s.emit (Event.findFileByFileIDQuery t.fileId)
    match env.findFileByFileID t.fileId with
    | none => syncCompleted s SyncStatusCode.failed
    | some file =>
        let details := file.details
        let title := baseName s.targetPath
        if !details.missing ∧ details.fileKind = FileKind.file ∧
            details.title = title ∧
            HasFileAsParent details (s.remoteParentFolderTracker.getD default).fileId then
          let s := s.emit (Event.updateTracker t.trackerId)
          let s := { s with db := MetadataDatabase.updateTracker t.trackerId details s.db }
          syncCompleted s env.updateTrackerStatus
        else
          syncCompleted s SyncStatusCode.retry

/-- Mirrors `LocalToRemoteSyncer::DidUploadExistingFile`. -/
def didUploadExistingFile (env : Env) (s : SyncerState)
    (error : GDataErrorCode) (entry : Option FileResource) : RunResult :=
  if error = GDataErrorCode.httpPrecondition ∨
      error = GDataErrorCode.httpConflict ∨
      error = GDataErrorCode.httpNotFound then
    let s := { s with needsRemoteChangeListing := true }
    updateRemoteMetadata env (s.remoteFileTracker.getD default).fileId s
  else
    let status := GDataErrorCodeToSyncStatusCode error
    if status ≠ SyncStatusCode.ok then
      syncCompleted s status
    else
      match entry with
      | none => syncCompleted s SyncStatusCode.failed
      | some entry =>
          let s := s.emit (Event.updateByFileResource entry.fileId)
          didUpdateDatabaseForUploadExistingFile env s env.updateByFileResourceStatus

/-- Mirrors `LocalToRemoteSyncer::DidGetMD5ForUpload`. -/
def didGetMD5ForUpload (env : Env) (s : SyncerState) (localFileMD5 : String) : RunResult :=
  let t := s.remoteFileTracker.getD default
  if localFileMD5 = t.syncedDetails.md5 then
    syncCompleted s SyncStatusCode.ok
  else
    let s := { s with syncAction := SyncAction.updated }
    let s := s.emit (Event.uploadExistingFile t.fileId t.syncedDetails.etag)
    didUploadExistingFile env s env.uploadExistingError env.uploadExistingEntry

/-- Mirrors `LocalToRemoteSyncer::UploadExistingFile` (the MD5 digest of the
local file is computed asynchronously and handed to `DidGetMD5ForUpload`). -/
def uploadExistingFile (env : Env) (s : SyncerState) : RunResult :=
  didGetMD5ForUpload env s env.localFileMD5

/-- Mirrors `LocalToRemoteSyncer::DidUploadNewFile`. -/
def didUploadNewFile (env : Env) (s : SyncerState)
    (error : GDataErrorCode) (entry : Option FileResource) : RunResult :=
  let s := if error = GDataErrorCode.httpNotFound
           then { s with needsRemoteChangeListing := true } else s
  let status := GDataErrorCodeToSyncStatusCode error
  if status ≠ SyncStatusCode.ok then
    syncCompleted s status
  else
    match entry with
    | none => syncCompleted s SyncStatusCode.failed
    | some entry =>
        let parent := s.remoteParentFolderTracker.getD default
        let s := s.emit (Event.replaceActiveTrackerWithNewResource parent.trackerId entry.fileId)
        let s := { s with db :=
          MetadataDatabase.replaceActiveTrackerWithNewResource parent.trackerId entry s.db }
        syncCompleted s env.replaceActiveTrackerStatus

/-- Mirrors `LocalToRemoteSyncer::UploadNewFile`. -/
def uploadNewFile (env : Env) (s : SyncerState) : RunResult :=
  let s := { s with syncAction := SyncAction.added }
  let parent := s.remoteParentFolderTracker.getD default
  let title := baseName s.targetPath
  let s := s.emit (Event.uploadNewFile parent.fileId title)
  didUploadNewFile env s env.uploadNewError env.uploadNewEntry

/-- Mirrors `LocalToRemoteSyncer::DidDetachResourceForCreationConflict`. -/
def didDetachResourceForCreationConflict (s : SyncerState)
    (error : GDataErrorCode) : RunResult :=
  let status := GDataErrorCodeToSyncStatusCode error
  if status ≠ SyncStatusCode.ok then
    syncCompleted s status
  else
    syncCompleted s SyncStatusCode.retry

/-- Mirrors `LocalToRemoteSyncer::DidCreateRemoteFolder`. -/
def didCreateRemoteFolder (env : Env) (s : SyncerState)
    (fileId : String) (status : SyncStatusCode) : RunResult :=
  let s := if status = SyncStatusCode.fileErrorNotFound
           then { s with needsRemoteChangeListing := true } else s
  if status ≠ SyncStatusCode.ok then
    syncCompleted s status
  else
    let parent := s.remoteParentFolderTracker.getD default
    let s := s.emit (Event.tryActivateTracker parent.trackerId fileId)
    match env.tryActivateResult with
    | ActivationStatus.activationPending =>
        let s := { s with db := MetadataDatabase.activateTrackerByFileID fileId s.db }
        syncCompleted s env.tryActivateCallbackStatus
    | ActivationStatus.activationFailedAnotherActiveTracker =>
        let s := s.emit (Event.removeResourceFromDirectory parent.fileId fileId)
        didDetachResourceForCreationConflict s env.removeFromDirectoryError

/-- Mirrors `LocalToRemoteSyncer::CreateRemoteFolder` (the `FolderCreator`
sub-task, not among the sources, is modelled from the spec as one remote
folder-creation mutation with an injected outcome and store effect). -/
def createRemoteFolder (env : Env) (s : SyncerState) : RunResult :=
  let s := { s with syncAction := SyncAction.added }
  let parent := s.remoteParentFolderTracker.getD default
  let title := baseName s.targetPath
  let s := s.emit (Event.createFolder parent.fileId title)
  let s := { s with db := env.folderCreatorDbEffect s.db }
  didCreateRemoteFolder env s env.folderCreatorFileId env.folderCreatorStatus

/-- Mirrors `LocalToRemoteSyncer::HandleConflict`. -/
def handleConflict (env : Env) (s : SyncerState) : RunResult :=
  if s.localIsMissing then
    syncCompleted s SyncStatusCode.ok
  else if s.localChange.IsFile then
    uploadNewFile env s
  else
    let t := s.remoteFileTracker.getD default
    let s := s.emit (Event.findFileByFileIDQuery t.fileId)
    match env.findFileByFileID t.fileId with
    | none => createRemoteFolder env s
    | some remoteFileMetadata =>
        let remoteDetails := remoteFileMetadata.details
        let title := baseName s.targetPath
        if !remoteDetails.missing ∧
            remoteDetails.fileKind = FileKind.folder ∧
            remoteDetails.title = title ∧
            HasFileAsParent remoteDetails
              (s.remoteParentFolderTracker.getD default).fileId then
          let s := s.emit (Event.updateTracker t.trackerId)
          let s := { s with db :=
            MetadataDatabase.updateTracker t.trackerId remoteDetails s.db }
          syncCompleted s env.updateTrackerStatus
        else
          createRemoteFolder env s

/-- Mirrors `LocalToRemoteSyncer::HandleExistingRemoteFile`. -/
def handleExistingRemoteFile (env : Env) (s : SyncerState) : RunResult :=
  if s.localIsMissing then
    deleteRemoteFile env syncCompleted s
  else
    let syncedDetails := (s.remoteFileTracker.getD default).syncedDetails
    if s.localChange.IsFile then
      if syncedDetails.fileKind = FileKind.file then
        uploadExistingFile env s
      else
        deleteRemoteFile env completeWithRetryStatus s
    else
      if syncedDetails.fileKind = FileKind.file then
        deleteRemoteFile env completeWithRetryStatus s
      else
        syncCompleted s SyncStatusCode.ok

/-- Mirrors `LocalToRemoteSyncer::RunExclusive` (entered holding the exclusive
token; the context-readiness check always passes in the embedding). -/
def runExclusive (env : Env) (localMetadata : SyncFileMetadata)
    (localChange : FileChange) (urlPath : List String)
    (db : MetadataDatabase) : RunResult :=
  let s : SyncerState :=
    { localChange := localChange,
      localIsMissing := IsLocalFileMissing localMetadata localChange,
      urlPath := urlPath, db := db }
  if s.localIsMissing && !localChange.IsDelete then
    notifyTaskDone s SyncStatusCode.ok
  else
    let s := s.emit Event.findNearestActiveAncestorQuery
    match env.findNearestActiveAncestor with
    | none => notifyTaskDone s SyncStatusCode.unknownOrigin
    | some (activeAncestorTracker, activeAncestorPath) =>
        let missingOpt : Option (List String) :=
          if activeAncestorPath = [] then some urlPath
          else if activeAncestorPath ≠ urlPath then
            (if pathUnder activeAncestorPath urlPath
             then some (urlPath.drop activeAncestorPath.length) else none)
          else some []
        match missingOpt with
        | none => notifyTaskDone s SyncStatusCode.failed
        | some missingComponents =>
            if !missingComponents.isEmpty && s.localIsMissing then
              notifyTaskDone s SyncStatusCode.ok
            else if 1 < missingComponents.length then
              if activeAncestorTracker.syncedDetails.fileKind = FileKind.folder then
                let s := { s with
                  remoteParentFolderTracker := some activeAncestorTracker,
                  targetPath := activeAncestorPath ++ [missingComponents.headD ""] }
                createRemoteFolder env s
              else
                let s := s.emit (Event.findTrackerByIDQuery
                  activeAncestorTracker.parentTrackerId)
                let s := { s with
                  remoteParentFolderTracker :=
                    env.findTrackerByID activeAncestorTracker.parentTrackerId,
                  remoteFileTracker := some activeAncestorTracker,
                  targetPath := activeAncestorPath }
                deleteRemoteFile env completeWithRetryStatus s
            else if missingComponents.isEmpty then
              let s := s.emit (Event.findTrackerByIDQuery
                activeAncestorTracker.parentTrackerId)
              let s := { s with
                remoteParentFolderTracker :=
                  env.findTrackerByID activeAncestorTracker.parentTrackerId,
                remoteFileTracker := some activeAncestorTracker,
                targetPath := urlPath }
              if activeAncestorTracker.dirty then
                handleConflict env s
              else
                handleExistingRemoteFile env s
            else
              let s := { s with
                remoteParentFolderTracker := some activeAncestorTracker,
                targetPath := urlPath }
              if localChange.fileType = SyncFileType.file then
                uploadNewFile env s
              else
                createRemoteFolder env s

end LocalToRemoteSyncer

/-- Engine-level service states (`RemoteServiceState`). -/
inductive RemoteServiceState where
  | ok
  | temporaryUnavailable
  | authenticationRequired
  | disabled
deriving DecidableEq, Repr, Inhabited

namespace SyncEngine

/-- Mirrors `SyncEngine::UpdateServiceStateFromSyncStatusCode` as the function
from the completed task's status code (plus whether network I/O occurred,
whether a refresh token is present, and the current state) to the resulting
service state; non-mapped codes keep the state. -/
def updateServiceStateFromSyncStatusCode (status : SyncStatusCode)
    (usedNetwork hasRefreshToken : Bool)
    (state : RemoteServiceState) : RemoteServiceState :=
  match status with
  | SyncStatusCode.ok =>
      if usedNetwork then RemoteServiceState.ok else state
  | SyncStatusCode.authenticationFailed => RemoteServiceState.authenticationRequired
  | SyncStatusCode.accessForbidden => RemoteServiceState.authenticationRequired
  | SyncStatusCode.serviceTemporarilyUnavailable
  | SyncStatusCode.networkError
  | SyncStatusCode.abort
  | SyncStatusCode.failed =>
      if hasRefreshToken then RemoteServiceState.temporaryUnavailable
      else RemoteServiceState.authenticationRequired
  | SyncStatusCode.dbCorruption
  | SyncStatusCode.dbIOError
  | SyncStatusCode.dbFailed => RemoteServiceState.disabled
  | _ => state

/-- Task priorities of `SyncTaskManager`. -/
inductive Priority where
  | low
  | med
  | high
deriving DecidableEq, Repr, Inhabited

/-- Follow-up work the engine emits while handling a completion; scheduling a
change listing carries its priority (`none` for the opportunistic
`ScheduleSyncTaskIfIdle` path, which takes no priority). -/
inductive EngineAction where
  | scheduleListChanges (priority : Option Priority)
  | scheduleConflictResolver
  | registerOrigin
  | notifyFileStatus (action : SyncAction)
  | runCallback (status : SyncStatusCode)
deriving DecidableEq, Repr, Inhabited

/-- Engine state fields touched by the embedded completion handlers, with the
constructor's initial values as defaults. -/
structure EngineState where
  serviceState : RemoteServiceState := RemoteServiceState.temporaryUnavailable
  shouldCheckConflict : Bool := true
  shouldCheckRemoteChange : Bool := true
  listingRemoteChanges : Bool := false
  syncEnabled : Bool := false
  timeToCheckChanges : Nat := 0
deriving DecidableEq, Repr, Inhabited

/-- Mirrors `SyncEngine::GetCurrentState`. -/
def getCurrentState (es : EngineState) : RemoteServiceState :=
  if !es.syncEnabled then RemoteServiceState.disabled else es.serviceState

/-- Mirrors `SyncEngine::DidApplyLocalChange`.  The completed syncer is given
by its observable outputs (status, url validity, sync action, and the
needs-remote-change-listing flag); `now` and `delay` stand for
`TimeTicks::Now()` and `kListChangesRetryDelaySeconds`. -/
def didApplyLocalChange (es : EngineState) (now delay : Nat)
    (status : SyncStatusCode) (urlValid : Bool) (syncAction : SyncAction)
    (needsRemoteChangeListing : Bool) : EngineState × List EngineAction :=
  let acts : List EngineAction :=
    if (status = SyncStatusCode.ok ∨ status = SyncStatusCode.retry) ∧
        urlValid = true ∧ syncAction ≠ SyncAction.none
    then [EngineAction.notifyFileStatus syncAction] else []
  let acts :=
    if status = SyncStatusCode.unknownOrigin ∧ urlValid = true
    then acts ++ [EngineAction.registerOrigin] else acts
  let (es, acts) :=
    if needsRemoteChangeListing && !es.listingRemoteChanges then
      ({ es with shouldCheckRemoteChange := false,
                 listingRemoteChanges := true,
                 timeToCheckChanges := now + delay },
       acts ++ [EngineAction.scheduleListChanges (some Priority.high)])
    else (es, acts)
  if status ≠ SyncStatusCode.ok ∧ status ≠ SyncStatusCode.noChangeToSync then
    (es, acts ++ [EngineAction.runCallback status])
  else
    let es := if status = SyncStatusCode.ok
              then { es with shouldCheckConflict := true } else es
    (es, acts ++ [EngineAction.runCallback status])

/-- Mirrors `SyncEngine::MaybeStartFetchChanges`; `hasDb`, `hasDirty` and
`idleOk` inject `GetMetadataDatabase()`, `HasDirtyTracker()` and the admission
result of `ScheduleSyncTaskIfIdle`. -/
def maybeStartFetchChanges (es : EngineState) (now delay : Nat)
    (hasDb hasDirty idleOk : Bool) : EngineState × List EngineAction :=
  if getCurrentState es = RemoteServiceState.disabled then (es, [])
  else if !hasDb then (es, [])
  else if es.listingRemoteChanges then (es, [])
  else if !es.shouldCheckRemoteChange && decide (now < es.timeToCheckChanges) then
    if !hasDirty && es.shouldCheckConflict then
      ({ es with shouldCheckConflict := false },
       if idleOk then [EngineAction.scheduleConflictResolver] else [])
    else (es, [])
  else
    if idleOk then
      ({ es with shouldCheckRemoteChange := false,
                 listingRemoteChanges := true,
                 timeToCheckChanges := now + delay },
       [EngineAction.scheduleListChanges none])
    else (es, [])

/-- Mirrors `SyncEngine::DidFetchChanges` (the completion callback of every
scheduled `ListChangesTask`). -/
def didFetchChanges (es : EngineState) (status : SyncStatusCode) : EngineState :=
  let es := if status = SyncStatusCode.ok
            then { es with shouldCheckConflict := true } else es
  { es with listingRemoteChanges := false }

/-- Mirrors `SyncEngine::OnNotificationReceived` (its effect on the embedded
state fields). -/
def onNotificationReceived (es : EngineState) : EngineState :=
  let es := if es.serviceState = RemoteServiceState.temporaryUnavailable
            then { es with serviceState := RemoteServiceState.ok } else es
  { es with shouldCheckRemoteChange := true }

/-- External stimuli driving the engine's listing-related transitions. -/
inductive EngineEvent where
  | applyDone (now delay : Nat) (status : SyncStatusCode) (urlValid : Bool)
      (syncAction : SyncAction) (needsRemoteChangeListing : Bool)
  | maybeFetch (now delay : Nat) (hasDb hasDirty idleOk : Bool)
  | fetchDone (status : SyncStatusCode)
  | notification
deriving DecidableEq, Repr, Inhabited

/-- One engine transition with its emitted follow-up actions. -/
def engineStep (es : EngineState) (e : EngineEvent) : EngineState × List EngineAction :=
  match e with
  | EngineEvent.applyDone now delay status urlValid a needsListing =>
      didApplyLocalChange es now delay status urlValid a needsListing
  | EngineEvent.maybeFetch now delay hasDb hasDirty idleOk =>
      maybeStartFetchChanges es now delay hasDb hasDirty idleOk
  | EngineEvent.fetchDone status => (didFetchChanges es status, [])
  | EngineEvent.notification => (onNotificationReceived es, [])

/-- Number of `ListChangesTask` schedulings among the emitted actions. -/
def countListings (acts : List EngineAction) : Nat :=
  acts.countP (fun a => match a with
    | EngineAction.scheduleListChanges _ => true
    | _ => false)

/-- Listings retired by a stimulus: a `fetchDone` is the completion callback
of exactly one previously scheduled listing. -/
def retiredListings : EngineEvent → Nat
  | EngineEvent.fetchDone _ => 1
  | _ => 0

/-- Run the engine over a stimulus trace, tracking how many change listings
are in flight: each scheduling adds one, and a `fetchDone` stimulus (the
completion of one scheduled listing) retires one. -/
def engineRun (es : EngineState) (inFlight : Nat) :
    List EngineEvent → EngineState × Nat
  | [] => (es, inFlight)
  | e :: rest =>
      engineRun (engineStep es e).1
        (inFlight + countListings (engineStep es e).2 - retiredListings e) rest

/-- Follows the spec's words (§4.2/§7), for comparison with the translated
`updateServiceStateFromSyncStatusCode`: authentication failure and
access-forbidden demand authentication; temporary-unavailability, network
error, abort and unclassified failure are temporary outages while a refresh
token remains, otherwise they demand authentication; database corruption,
IO error and database failure disable the service; a successful task moves
the state to `ok` only when network I/O occurred; every other code leaves
the state unchanged. -/
def updateServiceStateSpec (status : SyncStatusCode)
    (usedNetwork hasRefreshToken : Bool)
    (state : RemoteServiceState) : RemoteServiceState :=
  if status = SyncStatusCode.authenticationFailed ∨
      status = SyncStatusCode.accessForbidden then
    RemoteServiceState.authenticationRequired
  else if status = SyncStatusCode.serviceTemporarilyUnavailable ∨
      status = SyncStatusCode.networkError ∨
      status = SyncStatusCode.abort ∨
      status = SyncStatusCode.failed then
    if hasRefreshToken then RemoteServiceState.temporaryUnavailable
    else RemoteServiceState.authenticationRequired
  else if status = SyncStatusCode.dbCorruption ∨
      status = SyncStatusCode.dbIOError ∨
      status = SyncStatusCode.dbFailed then
    RemoteServiceState.disabled
  else if status = SyncStatusCode.ok then
    (if usedNetwork then RemoteServiceState.ok else state)
  else
    state

end SyncEngine

section ConcreteScenarios

/-- Active parent folder tracker used by the concrete scenarios. -/
def parentTrackerW : FileTracker :=
  { trackerId := 3, parentTrackerId := 1, fileId := "fidParent", active := true,
    hasSyncedDetails := true,
    syncedDetails := { title := "root", fileKind := FileKind.folder } }

/-- Dirty active tracker whose last-synced snapshot is a remote folder, sitting
at the exact target path of a local file update (the C1 conflict scenario). -/
def dirtyFolderTrackerW : FileTracker :=
  { trackerId := 7, parentTrackerId := 3, fileId := "fidFolder", active := true,
    dirty := true, hasSyncedDetails := true,
    syncedDetails := { title := "a.txt", fileKind := FileKind.folder, etag := "e1" } }

/-- Clean active tracker for a remote regular file at the exact target path. -/
def cleanFileTrackerW : FileTracker :=
  { trackerId := 7, parentTrackerId := 3, fileId := "fidF", active := true,
    dirty := false, hasSyncedDetails := true,
    syncedDetails := { title := "a.txt", fileKind := FileKind.file,
                       md5 := "oldmd5", etag := "e2" } }

/-- Active application-root folder tracker resolved at the empty path. -/
def rootTrackerW : FileTracker :=
  { trackerId := 2, parentTrackerId := 1, fileId := "fidRoot", active := true,
    hasSyncedDetails := true,
    syncedDetails := { title := "approot", fileKind := FileKind.folder } }

/-- Active tracker for the `docs` folder once it exists remotely. -/
def docsTrackerW : FileTracker :=
  { trackerId := 9, parentTrackerId := 2, fileId := "fidDocs", active := true,
    hasSyncedDetails := true,
    syncedDetails := { title := "docs", fileKind := FileKind.folder } }

/-- Environment for the C1 scenario: the conflict resolved by uploading. -/
def envConflictUploadW : Env :=
  { findNearestActiveAncestor := some (dirtyFolderTrackerW, ["a.txt"]),
    findTrackerByID := fun i => if i == 3 then some parentTrackerW else none,
    uploadNewEntry := some { fileId := "fidNew", title := "a.txt" } }

/-- Environment for the C2 upload scenario: the server answers the
upload-existing-file call with a version-tag conflict. -/
def envUploadConflictW : Env :=
  { findNearestActiveAncestor := some (cleanFileTrackerW, ["a.txt"]),
    findTrackerByID := fun i => if i == 3 then some parentTrackerW else none,
    localFileMD5 := "newmd5",
    uploadExistingError := GDataErrorCode.httpConflict,
    getFileEntry := some { fileId := "fidF", title := "a.txt" } }

/-- Environment for the C2 delete scenario: the server answers the delete
call with a precondition failure. -/
def envDeletePreconditionW : Env :=
  { findNearestActiveAncestor := some (cleanFileTrackerW, ["a.txt"]),
    findTrackerByID := fun i => if i == 3 then some parentTrackerW else none,
    deleteResourceError := GDataErrorCode.httpPrecondition }

/-- Environment for the C7 scenario: the server answers the delete call with
not-found. -/
def envDeleteNotFoundW : Env :=
  { findNearestActiveAncestor := some (cleanFileTrackerW, ["a.txt"]),
    findTrackerByID := fun i => if i == 3 then some parentTrackerW else none,
    deleteResourceError := GDataErrorCode.httpNotFound }

/-- Environment for the first C3 run: `docs/` is still missing below the
application root, and folder creation and activation succeed. -/
def envTwoMissingW : Env :=
  { findNearestActiveAncestor := some (rootTrackerW, []),
    folderCreatorFileId := "fidDocs" }

/-- Environment for the second C3 run: only `report.txt` is missing below the
`docs` folder, and the new-file upload succeeds. -/
def envOneMissingW : Env :=
  { findNearestActiveAncestor := some (docsTrackerW, ["docs"]),
    uploadNewEntry := some { fileId := "fidRep", title := "report.txt" } }

/-- Environment for the C8 scenario: a stale delete whose target has no
remote tracker below the application root. -/
def envRemoteAbsentW : Env :=
  { findNearestActiveAncestor := some (rootTrackerW, []) }

/-- Environment for the C6 scenario: the application scope has no active
ancestor tracker at all. -/
def envUnregisteredW : Env := { findNearestActiveAncestor := none }

/-- Syncer state at the `DidCreateRemoteFolder` continuation of the C4
scenario. -/
def creationConflictStateW : SyncerState :=
  { localChange := { change := ChangeType.addOrUpdate,
                     fileType := SyncFileType.directory },
    localIsMissing := false, urlPath := ["d"],
    remoteParentFolderTracker := some rootTrackerW, targetPath := ["d"],
    db := { trackers := [rootTrackerW, docsTrackerW] } }

/-- Environment for the C4 scenario: tracker activation loses the race. -/
def envActivationLostW : Env :=
  { tryActivateResult := ActivationStatus.activationFailedAnotherActiveTracker }

/-- Local metadata for an existing local file. -/
def localFileMetadataW : SyncFileMetadata := { fileType := SyncFileType.file }

/-- Local metadata for a locally missing file. -/
def localMissingMetadataW : SyncFileMetadata := { fileType := SyncFileType.unknown }

/-- Local add-or-update of a file. -/
def localFileAddW : FileChange :=
  { change := ChangeType.addOrUpdate, fileType := SyncFileType.file }

/-- Local add-or-update of a folder. -/
def localFolderAddW : FileChange :=
  { change := ChangeType.addOrUpdate, fileType := SyncFileType.directory }

/-- Local metadata for an existing local folder. -/
def localFolderMetadataW : SyncFileMetadata := { fileType := SyncFileType.directory }

/-- Environment for the folder-leaf C3 run: only the leaf folder is missing
below the `docs` folder, and folder creation and activation succeed. -/
def envFolderLeafW : Env :=
  { findNearestActiveAncestor := some (docsTrackerW, ["docs"]),
    folderCreatorFileId := "fidSub" }

/-- Local delete of a file. -/
def localFileDeleteW : FileChange :=
  { change := ChangeType.del, fileType := SyncFileType.file }

end ConcreteScenarios

section Helpers

theorem pathUnder_append (p q : List String) : pathUnder p (p ++ q) = true := by
  induction p with
  | nil => rfl
  | cons a as ih => simp [pathUnder, ih]

theorem self_ne_append_of_ne_nil (p xs : List String) (h : xs ≠ []) :
    p ≠ p ++ xs := by
  intro he
  have hl := congrArg List.length he
  rw [List.length_append] at hl
  have hx : xs.length = 0 := by omega
  exact h (List.length_eq_zero.mp hx)

theorem append_left_ne (p : List String) {xs ys : List String} (h : xs ≠ ys) :
    p ++ xs ≠ p ++ ys := by
  intro he
  induction p with
  | nil => exact h he
  | cons a as ih => exact ih (by simpa using he)

theorem baseName_concat (p : List String) (a : String) :
    baseName (p ++ [a]) = a := by
  simp [baseName]

end Helpers

open LocalToRemoteSyncer SyncEngine

/-- C5: the engine's mapping from a completed task's status code to the
service state is the deterministic function described by the spec:
authentication-failed and access-forbidden always yield
authentication-required; temporary-unavailability, network error, abort and
failed yield temporary-unavailability when a refresh token is present and
authentication-required otherwise; database corruption/IO-error/failed codes
disable the service; `ok` yields `ok` only when network I/O occurred; every
other code leaves the state unchanged. -/
theorem c5_service_state_mapping :
    ∀ (status : SyncStatusCode) (usedNetwork hasRefreshToken : Bool)
      (state : RemoteServiceState),
      updateServiceStateFromSyncStatusCode status usedNetwork hasRefreshToken state =
        updateServiceStateSpec status usedNetwork hasRefreshToken state := by
  intro status usedNetwork hasRefreshToken state
  cases status <;> rfl

/-- C10: a non-delete local change whose local file is missing (a stray
notification) completes immediately with `ok`: the trace is empty — no
remote mutation, no metadata-store operation, not even the ancestor lookup —
and the store is untouched. -/
theorem c10_stray_nondelete_is_noop :
    ∀ (env : Env) (lm : SyncFileMetadata) (lc : FileChange)
      (path : List String) (db : MetadataDatabase),
      IsLocalFileMissing lm lc = true →
      lc.IsDelete = false →
      (runExclusive env lm lc path db).status = SyncStatusCode.ok ∧
      (runExclusive env lm lc path db).trace = [] ∧
      (runExclusive env lm lc path db).db = db ∧
      (runExclusive env lm lc path db).syncAction = SyncAction.none := by
  intro env lm lc path db h1 h2
  simp [runExclusive, notifyTaskDone, h1, h2]

/-- Closed instance of `c10_stray_nondelete_is_noop` at a concrete stray
add of a locally missing file. -/
theorem c10_witness :
    IsLocalFileMissing localMissingMetadataW localFileAddW = true ∧
    localFileAddW.IsDelete = false ∧
    (runExclusive envUnregisteredW localMissingMetadataW localFileAddW
        ["x.txt"] {}).status = SyncStatusCode.ok ∧
    (runExclusive envUnregisteredW localMissingMetadataW localFileAddW
        ["x.txt"] {}).trace = [] :=
  ⟨by decide, by decide,
    (c10_stray_nondelete_is_noop envUnregisteredW localMissingMetadataW
      localFileAddW ["x.txt"] {} (by decide) (by decide)).1,
    (c10_stray_nondelete_is_noop envUnregisteredW localMissingMetadataW
      localFileAddW ["x.txt"] {} (by decide) (by decide)).2.1⟩

/-- C6: a local change applied against a scope with no active ancestor
tracker completes with `unknownOrigin` after only the ancestor lookup (no
remote or store mutation), and when the engine receives `unknownOrigin` for
a valid URL it emits a register-origin action and never a file-status
notification (no user-facing error). -/
theorem c6_unknown_origin_triggers_registration :
    (∀ (env : Env) (lm : SyncFileMetadata) (lc : FileChange)
       (path : List String) (db : MetadataDatabase),
       env.findNearestActiveAncestor = none →
       (IsLocalFileMissing lm lc && !lc.IsDelete) = false →
       (runExclusive env lm lc path db).status = SyncStatusCode.unknownOrigin ∧
       (runExclusive env lm lc path db).trace =
         [Event.findNearestActiveAncestorQuery] ∧
       (runExclusive env lm lc path db).db = db) ∧
    (∀ (es : EngineState) (now delay : Nat) (sa : SyncAction) (nl : Bool),
       EngineAction.registerOrigin ∈
         (didApplyLocalChange es now delay SyncStatusCode.unknownOrigin
           true sa nl).2 ∧
       ∀ a ∈ (didApplyLocalChange es now delay SyncStatusCode.unknownOrigin
           true sa nl).2, ∀ sa2, a ≠ EngineAction.notifyFileStatus sa2) := by
  constructor
  · intro env lm lc path db h1 h2
    simp [runExclusive, notifyTaskDone, SyncerState.emit, h1, h2]
  · intro es now delay sa nl
    cases h : (nl && !es.listingRemoteChanges) <;>
      simp [didApplyLocalChange, h]

/-- Closed instance of `c6_unknown_origin_triggers_registration` at a
concrete unregistered scope. -/
theorem c6_witness :
    envUnregisteredW.findNearestActiveAncestor = none ∧
    (IsLocalFileMissing localFileMetadataW localFileAddW &&
      !localFileAddW.IsDelete) = false ∧
    (runExclusive envUnregisteredW localFileMetadataW localFileAddW
        ["y.txt"] {}).status = SyncStatusCode.unknownOrigin ∧
    EngineAction.registerOrigin ∈
      (didApplyLocalChange {} 0 5 SyncStatusCode.unknownOrigin
        true SyncAction.none false).2 :=
  ⟨rfl, by decide,
    (c6_unknown_origin_triggers_registration.1 envUnregisteredW
      localFileMetadataW localFileAddW ["y.txt"] {} rfl (by decide)).1,
    (c6_unknown_origin_triggers_registration.2 {} 0 5 SyncAction.none false).1⟩

/-- C8: a local delete whose local file is already missing and whose target
has no remote tracker at the exact path (at least one component is missing
below the nearest active ancestor) completes with `ok` after only the
ancestor lookup: no remote delete (indeed no remote mutation at all) is
issued and the store is untouched; hence each such apply — in particular the
second of two identical deletes — is a no-op success. -/
theorem c8_delete_remote_absent_noop :
    ∀ (env : Env) (lm : SyncFileMetadata) (lc : FileChange)
      (path : List String) (db : MetadataDatabase)
      (anc : FileTracker) (ancPath : List String),
      lc.IsDelete = true →
      env.findNearestActiveAncestor = some (anc, ancPath) →
      pathUnder ancPath path = true →
      ancPath.length < path.length →
      (runExclusive env lm lc path db).status = SyncStatusCode.ok ∧
      (runExclusive env lm lc path db).trace =
        [Event.findNearestActiveAncestorQuery] ∧
      (runExclusive env lm lc path db).db = db ∧
      (runExclusive env lm lc path db).remoteOps = [] := by
  intro env lm lc path db anc ancPath hdel hfa hunder hlen
  have hmiss : IsLocalFileMissing lm lc = true := by
    simp [IsLocalFileMissing, hdel]
  by_cases hnil : ancPath = []
  · subst hnil
    have hpne : path ≠ [] := by
      intro h
      rw [h] at hlen
      simp at hlen
    have hpe : path.isEmpty = false := by
      cases hp : path.isEmpty
      · rfl
      · exact absurd (List.isEmpty_iff.mp hp) hpne
    simp [runExclusive, notifyTaskDone, SyncerState.emit, RunResult.remoteOps,
      Event.isRemoteMutation, hfa, hdel, hmiss, hpe]
  · have hne : ancPath ≠ path := by
      intro h
      rw [h] at hlen
      omega
    have hdne : (path.drop ancPath.length) ≠ [] := by
      intro h
      have := congrArg List.length h
      simp at this
      omega
    have hde : (path.drop ancPath.length).isEmpty = false := by
      cases hp : (path.drop ancPath.length).isEmpty
      · rfl
      · exact absurd (List.isEmpty_iff.mp hp) hdne
    simp [runExclusive, notifyTaskDone, SyncerState.emit, RunResult.remoteOps,
      Event.isRemoteMutation, hfa, hdel, hmiss, hnil, hne, hunder, hde]

/-- Closed instance of `c8_delete_remote_absent_noop`: a stale delete below
the application root with no remote tracker on the way. -/
theorem c8_witness :
    localFileDeleteW.IsDelete = true ∧
    envRemoteAbsentW.findNearestActiveAncestor = some (rootTrackerW, []) ∧
    (runExclusive envRemoteAbsentW localMissingMetadataW localFileDeleteW
        ["gone.txt"] { trackers := [rootTrackerW] }).status = SyncStatusCode.ok ∧
    (runExclusive envRemoteAbsentW localMissingMetadataW localFileDeleteW
        ["gone.txt"] { trackers := [rootTrackerW] }).remoteOps = [] :=
  ⟨by decide, rfl,
    (c8_delete_remote_absent_noop envRemoteAbsentW localMissingMetadataW
      localFileDeleteW ["gone.txt"] { trackers := [rootTrackerW] }
      rootTrackerW [] (by decide) rfl (by decide) (by decide)).1,
    (c8_delete_remote_absent_noop envRemoteAbsentW localMissingMetadataW
      localFileDeleteW ["gone.txt"] { trackers := [rootTrackerW] }
      rootTrackerW [] (by decide) rfl (by decide) (by decide)).2.2.2⟩

/-- C7: when deleting the remote object of a tracked file answers
"not found", the syncer treats the delete as a success: it records the remote
deletion through `UpdateByDeletedRemoteFile` — after which no tracker for
that remote object remains in the store — and the task completes with `ok`. -/
theorem c7_delete_not_found_is_success :
    ∀ (env : Env) (lm : SyncFileMetadata) (lc : FileChange)
      (urlPath : List String) (db : MetadataDatabase) (t : FileTracker),
      lc.IsDelete = true →
      env.findNearestActiveAncestor = some (t, urlPath) →
      t.dirty = false →
      env.deleteResourceError = GDataErrorCode.httpNotFound →
      env.updateByDeletedRemoteFileStatus = SyncStatusCode.ok →
      (runExclusive env lm lc urlPath db).status = SyncStatusCode.ok ∧
      (runExclusive env lm lc urlPath db).trace =
        [Event.findNearestActiveAncestorQuery,
         Event.findTrackerByIDQuery t.parentTrackerId,
         Event.deleteResource t.fileId t.syncedDetails.etag,
         Event.updateByDeletedRemoteFile t.fileId] ∧
      ∀ t2 ∈ (runExclusive env lm lc urlPath db).db.trackers,
        t2.fileId ≠ t.fileId := by
  intro env lm lc urlPath db t hdel hfa hdirty herr hst
  have hmiss : IsLocalFileMissing lm lc = true := by
    simp [IsLocalFileMissing, hdel]
  by_cases hnil : urlPath = []
  · subst hnil
    simp [runExclusive, handleExistingRemoteFile, deleteRemoteFile,
      didDeleteRemoteFile, syncCompleted, notifyTaskDone, SyncerState.emit,
      MetadataDatabase.updateByDeletedRemoteFile, GDataErrorCodeToSyncStatusCode,
      List.mem_filter, hfa, hdel, hmiss, hdirty, herr, hst]
  · simp [runExclusive, handleExistingRemoteFile, deleteRemoteFile,
      didDeleteRemoteFile, syncCompleted, notifyTaskDone, SyncerState.emit,
      MetadataDatabase.updateByDeletedRemoteFile, GDataErrorCodeToSyncStatusCode,
      List.mem_filter, hfa, hdel, hmiss, hdirty, herr, hst, hnil]

/-- Closed instance of `c7_delete_not_found_is_success`: the remote file is
already gone when the delete is issued. -/
theorem c7_witness :
    localFileDeleteW.IsDelete = true ∧
    envDeleteNotFoundW.findNearestActiveAncestor =
      some (cleanFileTrackerW, ["a.txt"]) ∧
    cleanFileTrackerW.dirty = false ∧
    envDeleteNotFoundW.deleteResourceError = GDataErrorCode.httpNotFound ∧
    (runExclusive envDeleteNotFoundW localMissingMetadataW localFileDeleteW
        ["a.txt"] { trackers := [cleanFileTrackerW, parentTrackerW] }).status =
      SyncStatusCode.ok ∧
    ∀ t2 ∈ (runExclusive envDeleteNotFoundW localMissingMetadataW
        localFileDeleteW ["a.txt"]
        { trackers := [cleanFileTrackerW, parentTrackerW] }).db.trackers,
      t2.fileId ≠ cleanFileTrackerW.fileId :=
  ⟨by decide, rfl, rfl, rfl,
    (c7_delete_not_found_is_success envDeleteNotFoundW localMissingMetadataW
      localFileDeleteW ["a.txt"] { trackers := [cleanFileTrackerW, parentTrackerW] }
      cleanFileTrackerW (by decide) rfl rfl rfl rfl).1,
    (c7_delete_not_found_is_success envDeleteNotFoundW localMissingMetadataW
      localFileDeleteW ["a.txt"] { trackers := [cleanFileTrackerW, parentTrackerW] }
      cleanFileTrackerW (by decide) rfl rfl rfl rfl).2.2⟩

/-- C2 counterexample: at a concrete local file update whose remote version
tag moved (the server answers the upload with `httpConflict`), the task
completes with `fileBusy` — not `retry` as the claim states; and at a
concrete local delete answered `httpPrecondition`, the task completes `ok`
and does not mark that a remote listing is needed. -/
theorem c2_counterexample :
    (runExclusive envUploadConflictW localFileMetadataW localFileAddW
        ["a.txt"] { trackers := [cleanFileTrackerW, parentTrackerW] }).status =
      SyncStatusCode.fileBusy ∧
    SyncStatusCode.fileBusy ≠ SyncStatusCode.retry ∧
    (runExclusive envDeletePreconditionW localMissingMetadataW localFileDeleteW
        ["a.txt"] { trackers := [cleanFileTrackerW, parentTrackerW] }).status =
      SyncStatusCode.ok ∧
    (runExclusive envDeletePreconditionW localMissingMetadataW localFileDeleteW
        ["a.txt"] { trackers := [cleanFileTrackerW, parentTrackerW]
      }).needsRemoteChangeListing = false := by
  refine ⟨rfl, by decide, rfl, rfl⟩

/-- C2 as amended: a version-tag mismatch on an upload of an existing file
(`httpPrecondition`/`httpConflict`) makes the syncer abandon the upload,
mark that a remote change listing is needed, and complete with `fileBusy`
(the "listing required" status) — the stale upload is issued exactly once
and never retried within the task; a version-tag mismatch on a remote
delete is resolved by ignoring the local deletion: the task completes `ok`
without marking a listing and without touching the store. -/
theorem c2_version_tag_mismatch_amended :
    (∀ (env : Env) (lm : SyncFileMetadata) (urlPath : List String)
       (db : MetadataDatabase) (t : FileTracker),
       env.findNearestActiveAncestor = some (t, urlPath) →
       t.dirty = false →
       lm.fileType = SyncFileType.file →
       t.syncedDetails.fileKind = FileKind.file →
       env.localFileMD5 ≠ t.syncedDetails.md5 →
       (env.uploadExistingError = GDataErrorCode.httpPrecondition ∨
        env.uploadExistingError = GDataErrorCode.httpConflict) →
       (runExclusive env lm localFileAddW urlPath db).status =
          SyncStatusCode.fileBusy ∧
       (runExclusive env lm localFileAddW urlPath db).needsRemoteChangeListing =
          true ∧
       (runExclusive env lm localFileAddW urlPath db).remoteOps =
          [Event.uploadExistingFile t.fileId t.syncedDetails.etag]) ∧
    (∀ (env : Env) (lm : SyncFileMetadata) (lc : FileChange)
       (urlPath : List String) (db : MetadataDatabase) (t : FileTracker),
       lc.IsDelete = true →
       env.findNearestActiveAncestor = some (t, urlPath) →
       t.dirty = false →
       (env.deleteResourceError = GDataErrorCode.httpPrecondition ∨
        env.deleteResourceError = GDataErrorCode.httpConflict) →
       (runExclusive env lm lc urlPath db).status = SyncStatusCode.ok ∧
       (runExclusive env lm lc urlPath db).needsRemoteChangeListing = false ∧
       (runExclusive env lm lc urlPath db).db = db ∧
       (runExclusive env lm lc urlPath db).remoteOps =
          [Event.deleteResource t.fileId t.syncedDetails.etag]) := by
  constructor
  · intro env lm urlPath db t hfa hdirty hlm hkind hmd5 herr
    have hmiss : IsLocalFileMissing lm
        { change := ChangeType.addOrUpdate, fileType := SyncFileType.file } = false := by
      simp [IsLocalFileMissing, FileChange.IsDelete, hlm]
    have hrun :
        runExclusive env lm localFileAddW urlPath db =
          didUploadExistingFile env
            ({ localChange := localFileAddW, localIsMissing := false,
               urlPath := urlPath,
               syncAction := SyncAction.updated,
               remoteFileTracker := some t,
               remoteParentFolderTracker := env.findTrackerByID t.parentTrackerId,
               targetPath := urlPath,
               db := db,
               trace := [Event.findNearestActiveAncestorQuery,
                 Event.findTrackerByIDQuery t.parentTrackerId,
                 Event.uploadExistingFile t.fileId t.syncedDetails.etag] } :
              SyncerState)
            env.uploadExistingError env.uploadExistingEntry := by
      by_cases hnil : urlPath = []
      · subst hnil
        simp [runExclusive, handleExistingRemoteFile, uploadExistingFile,
          didGetMD5ForUpload, SyncerState.emit, hfa, hmiss, hdirty, hkind, hmd5,
          localFileAddW, FileChange.IsDelete, FileChange.IsFile]
      · simp [runExclusive, handleExistingRemoteFile, uploadExistingFile,
          didGetMD5ForUpload, SyncerState.emit, hfa, hmiss, hdirty, hkind, hmd5,
          hnil, localFileAddW, FileChange.IsDelete, FileChange.IsFile]
    rcases herr with herr | herr <;>
      rw [hrun] <;>
      cases hent : env.getFileEntry <;>
      cases hge : env.getFileError <;>
      simp [didUploadExistingFile, updateRemoteMetadata, didGetRemoteMetadata,
        completeWithRetryStatus, syncCompleted, notifyTaskDone,
        SyncerState.emit, RunResult.remoteOps, Event.isRemoteMutation,
        GDataErrorCodeToSyncStatusCode, herr, hent, hge]
  · intro env lm lc urlPath db t hdel hfa hdirty herr
    have hmiss : IsLocalFileMissing lm lc = true := by
      simp [IsLocalFileMissing, hdel]
    rcases herr with herr | herr <;> by_cases hnil : urlPath = [] <;>
      first
      | (subst hnil
         simp [runExclusive, handleExistingRemoteFile, deleteRemoteFile,
           didDeleteRemoteFile, syncCompleted, notifyTaskDone, SyncerState.emit,
           RunResult.remoteOps, Event.isRemoteMutation,
           GDataErrorCodeToSyncStatusCode, hfa, hdel, hmiss, hdirty, herr])
      | simp [runExclusive, handleExistingRemoteFile, deleteRemoteFile,
          didDeleteRemoteFile, syncCompleted, notifyTaskDone, SyncerState.emit,
          RunResult.remoteOps, Event.isRemoteMutation,
          GDataErrorCodeToSyncStatusCode, hfa, hdel, hmiss, hdirty, herr, hnil]

/-- Closed instance of `c2_version_tag_mismatch_amended` at the same concrete
scenarios as the counterexample. -/
theorem c2_witness :
    envUploadConflictW.findNearestActiveAncestor =
      some (cleanFileTrackerW, ["a.txt"]) ∧
    (envUploadConflictW.uploadExistingError = GDataErrorCode.httpPrecondition ∨
      envUploadConflictW.uploadExistingError = GDataErrorCode.httpConflict) ∧
    (runExclusive envUploadConflictW localFileMetadataW localFileAddW
        ["a.txt"] { trackers := [cleanFileTrackerW, parentTrackerW]
      }).needsRemoteChangeListing = true ∧
    (runExclusive envDeletePreconditionW localMissingMetadataW localFileDeleteW
        ["a.txt"] { trackers := [cleanFileTrackerW, parentTrackerW] }).remoteOps =
      [Event.deleteResource cleanFileTrackerW.fileId
        cleanFileTrackerW.syncedDetails.etag] :=
  ⟨rfl, Or.inr rfl,
    (c2_version_tag_mismatch_amended.1 envUploadConflictW localFileMetadataW
      ["a.txt"] { trackers := [cleanFileTrackerW, parentTrackerW] }
      cleanFileTrackerW rfl rfl rfl rfl (by decide) (Or.inr rfl)).2.1,
    (c2_version_tag_mismatch_amended.2 envDeletePreconditionW
      localMissingMetadataW localFileDeleteW ["a.txt"]
      { trackers := [cleanFileTrackerW, parentTrackerW] }
      cleanFileTrackerW (by decide) rfl rfl (Or.inl rfl)).2.2.2⟩

/-- C1 counterexample: at a concrete conflict — dirty active tracker whose
last-synced snapshot is a remote folder at the exact target path, local
change a file add — the syncer's only remote mutation is the new-file
upload; no remote delete is ever issued, refuting "first deleting the
remote folder and then creating the remote file … never skipping the
delete". -/
theorem c1_counterexample :
    (runExclusive envConflictUploadW localFileMetadataW localFileAddW
        ["a.txt"] { trackers := [dirtyFolderTrackerW, parentTrackerW] }).remoteOps =
      [Event.uploadNewFile "fidParent" "a.txt"] ∧
    ((runExclusive envConflictUploadW localFileMetadataW localFileAddW
        ["a.txt"] { trackers := [dirtyFolderTrackerW, parentTrackerW]
      }).trace.filter Event.isRemoteDelete) = [] := by
  refine ⟨rfl, rfl⟩

/-- C1 as amended: in `HandleConflict` — dirty active tracker at the exact
target path, local change a file add/update — the syncer resolves the
conflict by uploading the local file as a new remote file under the active
parent (last-writer-wins by re-upload); it issues no remote delete at all:
the run's only remote mutation is the new-file upload. -/
theorem c1_conflict_resolved_by_upload :
    ∀ (env : Env) (lm : SyncFileMetadata) (urlPath : List String)
      (db : MetadataDatabase) (t : FileTracker),
      env.findNearestActiveAncestor = some (t, urlPath) →
      t.dirty = true →
      lm.fileType = SyncFileType.file →
      (∃ parentFolderId,
         (runExclusive env lm localFileAddW urlPath db).remoteOps =
           [Event.uploadNewFile parentFolderId (baseName urlPath)]) ∧
      ((runExclusive env lm localFileAddW urlPath db).trace.filter
        Event.isRemoteDelete) = [] ∧
      (runExclusive env lm localFileAddW urlPath db).syncAction =
        SyncAction.added := by
  intro env lm urlPath db t hfa hdirty hlm
  have hmiss : IsLocalFileMissing lm
      { change := ChangeType.addOrUpdate, fileType := SyncFileType.file } = false := by
    simp [IsLocalFileMissing, FileChange.IsDelete, hlm]
  have hrun :
      runExclusive env lm localFileAddW urlPath db =
        didUploadNewFile env
          ({ localChange := localFileAddW, localIsMissing := false,
             urlPath := urlPath,
             syncAction := SyncAction.added,
             remoteFileTracker := some t,
             remoteParentFolderTracker := env.findTrackerByID t.parentTrackerId,
             targetPath := urlPath,
             db := db,
             trace := [Event.findNearestActiveAncestorQuery,
               Event.findTrackerByIDQuery t.parentTrackerId,
               Event.uploadNewFile
                 ((env.findTrackerByID t.parentTrackerId).getD default).fileId
                 (baseName urlPath)] } : SyncerState)
          env.uploadNewError env.uploadNewEntry := by
    by_cases hnil : urlPath = []
    · subst hnil
      simp [runExclusive, handleConflict, uploadNewFile, SyncerState.emit,
        hfa, hmiss, hdirty, localFileAddW, FileChange.IsDelete, FileChange.IsFile]
    · simp [runExclusive, handleConflict, uploadNewFile, SyncerState.emit,
        hfa, hmiss, hdirty, hnil, localFileAddW, FileChange.IsDelete,
        FileChange.IsFile]
  refine ⟨⟨((env.findTrackerByID t.parentTrackerId).getD default).fileId, ?_⟩, ?_, ?_⟩ <;>
    rw [hrun] <;>
    cases hent : env.uploadNewEntry <;>
    cases hue : env.uploadNewError <;>
    simp [didUploadNewFile, syncCompleted, notifyTaskDone, SyncerState.emit,
      RunResult.remoteOps, Event.isRemoteMutation, Event.isRemoteDelete,
      GDataErrorCodeToSyncStatusCode, hent, hue]

/-- Closed instance of `c1_conflict_resolved_by_upload` at the concrete
conflict of the counterexample. -/
theorem c1_witness :
    envConflictUploadW.findNearestActiveAncestor =
      some (dirtyFolderTrackerW, ["a.txt"]) ∧
    dirtyFolderTrackerW.dirty = true ∧
    localFileMetadataW.fileType = SyncFileType.file ∧
    ((runExclusive envConflictUploadW localFileMetadataW localFileAddW
        ["a.txt"] { trackers := [dirtyFolderTrackerW, parentTrackerW]
      }).trace.filter Event.isRemoteDelete) = [] :=
  ⟨rfl, rfl, rfl,
    (c1_conflict_resolved_by_upload envConflictUploadW localFileMetadataW
      ["a.txt"] { trackers := [dirtyFolderTrackerW, parentTrackerW] }
      dirtyFolderTrackerW rfl rfl rfl).2.1⟩

/-- C3: for every local add (file or folder) whose target is missing more
than one component — any number at least two — below the nearest active
folder ancestor, one run creates only the first missing folder (the sole
remote mutation) and completes with `retry`; a run of the same change once
only the leaf component is missing creates the leaf — uploads the file when
the change is a file, creates the folder when it is a folder — as its sole
remote mutation and completes `ok` with sync action `added`. -/
theorem c3_deep_add_one_level_per_run :
    (∀ (env : Env) (lm : SyncFileMetadata) (lc : FileChange)
       (db : MetadataDatabase) (anc : FileTracker) (ancPath : List String)
       (d e : String) (rest : List String),
       env.findNearestActiveAncestor = some (anc, ancPath) →
       anc.syncedDetails.fileKind = FileKind.folder →
       lc.IsDelete = false →
       lm.fileType ≠ SyncFileType.unknown →
       env.folderCreatorStatus = SyncStatusCode.ok →
       env.tryActivateResult = ActivationStatus.activationPending →
       env.tryActivateCallbackStatus = SyncStatusCode.ok →
       (runExclusive env lm lc (ancPath ++ (d :: e :: rest)) db).status =
          SyncStatusCode.retry ∧
       (runExclusive env lm lc (ancPath ++ (d :: e :: rest)) db).remoteOps =
          [Event.createFolder anc.fileId d] ∧
       (runExclusive env lm lc (ancPath ++ (d :: e :: rest)) db).syncAction =
          SyncAction.added) ∧
    (∀ (env : Env) (lm : SyncFileMetadata) (lc : FileChange)
       (db : MetadataDatabase) (docs : FileTracker) (ancPath : List String)
       (f : String) (entry : FileResource),
       env.findNearestActiveAncestor = some (docs, ancPath) →
       lc.IsDelete = false →
       lc.fileType = SyncFileType.file →
       lm.fileType ≠ SyncFileType.unknown →
       env.uploadNewError = GDataErrorCode.httpSuccess →
       env.uploadNewEntry = some entry →
       env.replaceActiveTrackerStatus = SyncStatusCode.ok →
       (runExclusive env lm lc (ancPath ++ [f]) db).status =
          SyncStatusCode.ok ∧
       (runExclusive env lm lc (ancPath ++ [f]) db).syncAction =
          SyncAction.added ∧
       (runExclusive env lm lc (ancPath ++ [f]) db).remoteOps =
          [Event.uploadNewFile docs.fileId f]) ∧
    (∀ (env : Env) (lm : SyncFileMetadata) (lc : FileChange)
       (db : MetadataDatabase) (docs : FileTracker) (ancPath : List String)
       (f : String),
       env.findNearestActiveAncestor = some (docs, ancPath) →
       lc.IsDelete = false →
       lc.fileType = SyncFileType.directory →
       lm.fileType ≠ SyncFileType.unknown →
       env.folderCreatorStatus = SyncStatusCode.ok →
       env.tryActivateResult = ActivationStatus.activationPending →
       env.tryActivateCallbackStatus = SyncStatusCode.ok →
       (runExclusive env lm lc (ancPath ++ [f]) db).status =
          SyncStatusCode.ok ∧
       (runExclusive env lm lc (ancPath ++ [f]) db).syncAction =
          SyncAction.added ∧
       (runExclusive env lm lc (ancPath ++ [f]) db).remoteOps =
          [Event.createFolder docs.fileId f]) := by
  refine ⟨?_, ?_, ?_⟩
  · intro env lm lc db anc ancPath d e rest hfa hfk hdel hlm hfc hta htc
    have hmiss : IsLocalFileMissing lm lc = false := by
      simp [IsLocalFileMissing, hdel, hlm]
    have htp : ancPath ++ [d] ≠ ancPath ++ (d :: e :: rest) := by
      refine append_left_ne ancPath ?_
      simp
    have h2lt : 1 < (d :: e :: rest).length := by
      simp only [List.length_cons]
      omega
    have hbn : baseName (ancPath ++ [d]) = d := baseName_concat ancPath d
    by_cases hnil : ancPath = []
    · subst hnil
      simp only [List.nil_append] at htp hbn ⊢
      simp [runExclusive, createRemoteFolder, didCreateRemoteFolder,
        syncCompleted, notifyTaskDone, SyncerState.emit, RunResult.remoteOps,
        Event.isRemoteMutation, hfa, hmiss, hdel, hfk, hfc, hta, htc, htp,
        h2lt, hbn]
    · have hne2 : ancPath ≠ ancPath ++ (d :: e :: rest) :=
        self_ne_append_of_ne_nil ancPath (d :: e :: rest) (by simp)
      have hpu : pathUnder ancPath (ancPath ++ (d :: e :: rest)) = true :=
        pathUnder_append ancPath (d :: e :: rest)
      have hdrop : (ancPath ++ (d :: e :: rest)).drop ancPath.length =
          d :: e :: rest :=
        List.drop_left ancPath (d :: e :: rest)
      simp [runExclusive, createRemoteFolder, didCreateRemoteFolder,
        syncCompleted, notifyTaskDone, SyncerState.emit, RunResult.remoteOps,
        Event.isRemoteMutation, hfa, hmiss, hdel, hfk, hfc, hta, htc, htp,
        h2lt, hbn, hnil, hne2, hpu, hdrop]
  · intro env lm lc db docs ancPath f entry hfa hdel hft hlm hue hent hrs
    have hmiss : IsLocalFileMissing lm lc = false := by
      simp [IsLocalFileMissing, hdel, hlm]
    have hbn : baseName (ancPath ++ [f]) = f := baseName_concat ancPath f
    by_cases hnil : ancPath = []
    · subst hnil
      simp only [List.nil_append] at hbn ⊢
      simp [runExclusive, uploadNewFile, didUploadNewFile, syncCompleted,
        notifyTaskDone, SyncerState.emit, RunResult.remoteOps,
        Event.isRemoteMutation, GDataErrorCodeToSyncStatusCode,
        hfa, hmiss, hdel, hft, hue, hent, hrs, hbn]
    · have hne2 : ancPath ≠ ancPath ++ [f] :=
        self_ne_append_of_ne_nil ancPath [f] (by simp)
      have hpu : pathUnder ancPath (ancPath ++ [f]) = true :=
        pathUnder_append ancPath [f]
      have hdrop : (ancPath ++ [f]).drop ancPath.length = [f] :=
        List.drop_left ancPath [f]
      simp [runExclusive, uploadNewFile, didUploadNewFile, syncCompleted,
        notifyTaskDone, SyncerState.emit, RunResult.remoteOps,
        Event.isRemoteMutation, GDataErrorCodeToSyncStatusCode,
        hfa, hmiss, hdel, hft, hue, hent, hrs, hbn, hnil, hne2, hpu, hdrop]
  · intro env lm lc db docs ancPath f hfa hdel hft hlm hfc hta htc
    have hmiss : IsLocalFileMissing lm lc = false := by
      simp [IsLocalFileMissing, hdel, hlm]
    have hbn : baseName (ancPath ++ [f]) = f := baseName_concat ancPath f
    by_cases hnil : ancPath = []
    · subst hnil
      simp only [List.nil_append] at hbn ⊢
      simp [runExclusive, createRemoteFolder, didCreateRemoteFolder,
        syncCompleted, notifyTaskDone, SyncerState.emit, RunResult.remoteOps,
        Event.isRemoteMutation, hfa, hmiss, hdel, hft, hfc, hta, htc, hbn]
    · have hne2 : ancPath ≠ ancPath ++ [f] :=
        self_ne_append_of_ne_nil ancPath [f] (by simp)
      have hpu : pathUnder ancPath (ancPath ++ [f]) = true :=
        pathUnder_append ancPath [f]
      have hdrop : (ancPath ++ [f]).drop ancPath.length = [f] :=
        List.drop_left ancPath [f]
      simp [runExclusive, createRemoteFolder, didCreateRemoteFolder,
        syncCompleted, notifyTaskDone, SyncerState.emit, RunResult.remoteOps,
        Event.isRemoteMutation, hfa, hmiss, hdel, hft, hfc, hta, htc, hbn,
        hnil, hne2, hpu, hdrop]

/-- Closed instance of `c3_deep_add_one_level_per_run`: the spec's
`docs/report.txt` scenario (both runs), plus a three-component-deep file add
and a folder-leaf creation. -/
theorem c3_witness :
    envTwoMissingW.findNearestActiveAncestor = some (rootTrackerW, []) ∧
    rootTrackerW.syncedDetails.fileKind = FileKind.folder ∧
    (runExclusive envTwoMissingW localFileMetadataW localFileAddW
        ["docs", "report.txt"] { trackers := [rootTrackerW] }).status =
      SyncStatusCode.retry ∧
    (runExclusive envTwoMissingW localFileMetadataW localFileAddW
        ["docs", "report.txt"] { trackers := [rootTrackerW] }).remoteOps =
      [Event.createFolder "fidRoot" "docs"] ∧
    (runExclusive envTwoMissingW localFolderMetadataW localFolderAddW
        ["docs", "sub", "deep"] { trackers := [rootTrackerW] }).status =
      SyncStatusCode.retry ∧
    (runExclusive envOneMissingW localFileMetadataW localFileAddW
        ["docs", "report.txt"] { trackers := [rootTrackerW, docsTrackerW] }).status =
      SyncStatusCode.ok ∧
    (runExclusive envOneMissingW localFileMetadataW localFileAddW
        ["docs", "report.txt"]
        { trackers := [rootTrackerW, docsTrackerW] }).syncAction =
      SyncAction.added ∧
    (runExclusive envFolderLeafW localFolderMetadataW localFolderAddW
        ["docs", "sub"] { trackers := [rootTrackerW, docsTrackerW] }).status =
      SyncStatusCode.ok ∧
    (runExclusive envFolderLeafW localFolderMetadataW localFolderAddW
        ["docs", "sub"] { trackers := [rootTrackerW, docsTrackerW] }).remoteOps =
      [Event.createFolder "fidDocs" "sub"] :=
  ⟨rfl, rfl,
    (c3_deep_add_one_level_per_run.1 envTwoMissingW localFileMetadataW
      localFileAddW { trackers := [rootTrackerW] } rootTrackerW []
      "docs" "report.txt" [] rfl rfl (by decide) (by decide) rfl rfl rfl).1,
    (c3_deep_add_one_level_per_run.1 envTwoMissingW localFileMetadataW
      localFileAddW { trackers := [rootTrackerW] } rootTrackerW []
      "docs" "report.txt" [] rfl rfl (by decide) (by decide) rfl rfl rfl).2.1,
    (c3_deep_add_one_level_per_run.1 envTwoMissingW localFolderMetadataW
      localFolderAddW { trackers := [rootTrackerW] } rootTrackerW []
      "docs" "sub" ["deep"] rfl rfl (by decide) (by decide) rfl rfl rfl).1,
    (c3_deep_add_one_level_per_run.2.1 envOneMissingW localFileMetadataW
      localFileAddW { trackers := [rootTrackerW, docsTrackerW] } docsTrackerW
      ["docs"] "report.txt" { fileId := "fidRep", title := "report.txt" }
      rfl (by decide) rfl (by decide) rfl rfl rfl).1,
    (c3_deep_add_one_level_per_run.2.1 envOneMissingW localFileMetadataW
      localFileAddW { trackers := [rootTrackerW, docsTrackerW] } docsTrackerW
      ["docs"] "report.txt" { fileId := "fidRep", title := "report.txt" }
      rfl (by decide) rfl (by decide) rfl rfl rfl).2.1,
    (c3_deep_add_one_level_per_run.2.2 envFolderLeafW localFolderMetadataW
      localFolderAddW { trackers := [rootTrackerW, docsTrackerW] } docsTrackerW
      ["docs"] "sub" rfl (by decide) rfl (by decide) rfl rfl rfl).1,
    (c3_deep_add_one_level_per_run.2.2 envFolderLeafW localFolderMetadataW
      localFolderAddW { trackers := [rootTrackerW, docsTrackerW] } docsTrackerW
      ["docs"] "sub" rfl (by decide) rfl (by decide) rfl rfl rfl).2.2⟩

/-- C4: when remote folder creation succeeded but `TryActivateTracker`
answers that another tracker is already active for the slot, the syncer
issues exactly one further remote call — detaching the new folder from its
parent directory (never a delete) — leaves the store untouched (so a slot
with exactly one active tracker still has exactly one), and the task
completes with `retry`. -/
theorem c4_creation_race_detaches_and_retries :
    ∀ (env : Env) (s : SyncerState) (fileId : String),
      env.tryActivateResult = ActivationStatus.activationFailedAnotherActiveTracker →
      env.removeFromDirectoryError = GDataErrorCode.httpSuccess →
      s.needsRemoteChangeListing = false →
      (didCreateRemoteFolder env s fileId SyncStatusCode.ok).status =
        SyncStatusCode.retry ∧
      (didCreateRemoteFolder env s fileId SyncStatusCode.ok).db = s.db ∧
      (didCreateRemoteFolder env s fileId SyncStatusCode.ok).trace =
        s.trace ++
          [Event.tryActivateTracker
             (s.remoteParentFolderTracker.getD default).trackerId fileId,
           Event.removeResourceFromDirectory
             (s.remoteParentFolderTracker.getD default).fileId fileId] ∧
      ∀ (pid : Nat) (title : String),
        s.db.activeCountForSlot pid title = 1 →
        (didCreateRemoteFolder env s fileId SyncStatusCode.ok
          ).db.activeCountForSlot pid title = 1 := by
  intro env s fileId hta hrm hnl
  simp [didCreateRemoteFolder, didDetachResourceForCreationConflict,
    syncCompleted, notifyTaskDone, SyncerState.emit,
    GDataErrorCodeToSyncStatusCode, hta, hrm, hnl]

/-- Closed instance of `c4_creation_race_detaches_and_retries` at a concrete
lost folder-creation race (the `docs` slot keeps its single active
tracker). -/
theorem c4_witness :
    envActivationLostW.tryActivateResult =
      ActivationStatus.activationFailedAnotherActiveTracker ∧
    creationConflictStateW.needsRemoteChangeListing = false ∧
    (didCreateRemoteFolder envActivationLostW creationConflictStateW
        "fidNewFolder" SyncStatusCode.ok).status = SyncStatusCode.retry ∧
    creationConflictStateW.db.activeCountForSlot 2 "docs" = 1 ∧
    (didCreateRemoteFolder envActivationLostW creationConflictStateW
        "fidNewFolder" SyncStatusCode.ok).db.activeCountForSlot 2 "docs" = 1 :=
  ⟨rfl, rfl,
    (c4_creation_race_detaches_and_retries envActivationLostW
      creationConflictStateW "fidNewFolder" rfl rfl rfl).1,
    by decide,
    (c4_creation_race_detaches_and_retries envActivationLostW
      creationConflictStateW "fidNewFolder" rfl rfl rfl).2.2.2 2 "docs"
      (by decide)⟩

/-- The listing-in-flight invariant: at most one change listing is in
flight, and the `listingRemoteChanges` flag is set exactly when one is. -/
def listingInv (es : EngineState) (inFlight : Nat) : Prop :=
  inFlight ≤ 1 ∧ (es.listingRemoteChanges = true ↔ inFlight = 1)

theorem engineStep_char (es : EngineState) (e : EngineEvent) :
    countListings (engineStep es e).2 ≤ 1 ∧
    (countListings (engineStep es e).2 = 1 →
        es.listingRemoteChanges = false ∧
        (engineStep es e).1.listingRemoteChanges = true) ∧
    (countListings (engineStep es e).2 = 0 →
        (engineStep es e).1.listingRemoteChanges =
          (match e with
           | EngineEvent.fetchDone _ => false
           | _ => es.listingRemoteChanges)) := by
  cases e with
  | applyDone now delay status uv a nl =>
      cases hc : (nl && !es.listingRemoteChanges)
      · simp only [engineStep, didApplyLocalChange, hc]
        split_ifs <;>
          simp_all [countListings, List.countP_cons, List.countP_nil,
            List.countP_append]
      · have hl : es.listingRemoteChanges = false := by
          cases hb : es.listingRemoteChanges
          · rfl
          · rw [hb] at hc
            simp at hc
        simp only [engineStep, didApplyLocalChange, hc]
        split_ifs <;>
          simp_all [countListings, List.countP_cons, List.countP_nil,
            List.countP_append]
  | maybeFetch now delay hasDb hasDirty idleOk =>
      simp only [engineStep, maybeStartFetchChanges]
      split_ifs <;>
        simp_all [countListings, List.countP_cons, List.countP_nil]
  | fetchDone status =>
      simp [engineStep, didFetchChanges, countListings]
  | notification =>
      simp [engineStep, onNotificationReceived, countListings, apply_ite]

theorem engineStep_preserves_listingInv (es : EngineState) (n : Nat)
    (e : EngineEvent) (h : listingInv es n) :
    listingInv (engineStep es e).1
      (n + countListings (engineStep es e).2 - retiredListings e) := by
  obtain ⟨h1, h2⟩ := h
  obtain ⟨hle, hone, hzero⟩ := engineStep_char es e
  rcases Nat.le_one_iff_eq_zero_or_eq_one.mp hle with hk | hk
  · have hzl := hzero hk
    cases e with
    | fetchDone status =>
        refine ⟨by omega, ?_⟩
        have hfl : (engineStep es (EngineEvent.fetchDone status)
            ).1.listingRemoteChanges = false := hzl
        rw [hfl, hk]
        simp only [retiredListings, Nat.add_zero, Bool.false_eq_true, false_iff]
        omega
    | applyDone now delay status uv a nl =>
        refine ⟨by omega, ?_⟩
        rw [hk]
        simp only [retiredListings, Nat.add_zero, Nat.sub_zero]
        rw [hzero hk]
        exact h2
    | maybeFetch now delay hasDb hasDirty idleOk =>
        refine ⟨by omega, ?_⟩
        rw [hk]
        simp only [retiredListings, Nat.add_zero, Nat.sub_zero]
        rw [hzero hk]
        exact h2
    | notification =>
        refine ⟨by omega, ?_⟩
        rw [hk]
        simp only [retiredListings, Nat.add_zero, Nat.sub_zero]
        rw [hzero hk]
        exact h2
  · obtain ⟨hlf, hlt⟩ := hone hk
    have hn1 : n ≠ 1 := by
      intro hh
      rw [h2.mpr hh] at hlf
      exact absurd hlf (by simp)
    have hn0 : n = 0 := by omega
    have hr : retiredListings e = 0 ∨ retiredListings e = 1 := by
      cases e <;> simp [retiredListings]
    cases e with
    | fetchDone status =>
        have hz : countListings (engineStep es (EngineEvent.fetchDone status)).2 = 0 := by
          simp [engineStep, countListings]
        rw [hz] at hk
        exact absurd hk (by decide)
    | applyDone now delay status uv a nl =>
        refine ⟨by simp [retiredListings]; omega, ?_⟩
        rw [hk, hn0, hlt]
        simp [retiredListings]
    | maybeFetch now delay hasDb hasDirty idleOk =>
        refine ⟨by simp [retiredListings]; omega, ?_⟩
        rw [hk, hn0, hlt]
        simp [retiredListings]
    | notification =>
        refine ⟨by simp [retiredListings]; omega, ?_⟩
        rw [hk, hn0, hlt]
        simp [retiredListings]

theorem engineRun_listingInv (tr : List EngineEvent) :
    ∀ (es : EngineState) (n : Nat), listingInv es n →
      listingInv (engineRun es n tr).1 (engineRun es n tr).2 := by
  induction tr with
  | nil =>
      intro es n h
      simpa [engineRun] using h
  | cons e rest ih =>
      intro es n h
      have hstep := engineStep_preserves_listingInv es n e h
      simpa [engineRun] using ih _ _ hstep

theorem engineStep_keeps_listing (es : EngineState) (e : EngineEvent)
    (hl : es.listingRemoteChanges = true)
    (hf : ∀ st, e ≠ EngineEvent.fetchDone st) :
    (engineStep es e).1.listingRemoteChanges = true := by
  obtain ⟨hle, hone, hzero⟩ := engineStep_char es e
  rcases Nat.le_one_iff_eq_zero_or_eq_one.mp hle with hk | hk
  · have hzl := hzero hk
    cases e with
    | fetchDone status => exact absurd rfl (hf status)
    | applyDone now delay status uv a nl => rw [hzl]; exact hl
    | maybeFetch now delay hasDb hasDirty idleOk => rw [hzl]; exact hl
    | notification => rw [hzl]; exact hl
  · have := (hone hk).1
    rw [hl] at this
    exact absurd this (by simp)

/-- C9: starting from the engine's initial state, at most one remote change
listing is ever in flight, the `listingRemoteChanges` flag tracks exactly
whether one is, a further `ListChangesTask` can only be scheduled when none
is in flight (and scheduling sets the flag), and the flag is cleared only by
the completion of the in-flight listing. -/
theorem c9_remote_listing_coalesced :
    ∀ (tr : List EngineEvent),
      (engineRun {} 0 tr).2 ≤ 1 ∧
      ((engineRun {} 0 tr).1.listingRemoteChanges = true ↔
        (engineRun {} 0 tr).2 = 1) ∧
      (∀ e, 0 < countListings (engineStep (engineRun {} 0 tr).1 e).2 →
          (engineRun {} 0 tr).2 = 0 ∧
          (engineStep (engineRun {} 0 tr).1 e).1.listingRemoteChanges = true) ∧
      (∀ e, (engineRun {} 0 tr).1.listingRemoteChanges = true →
          (∀ st, e ≠ EngineEvent.fetchDone st) →
          (engineStep (engineRun {} 0 tr).1 e).1.listingRemoteChanges = true) := by
  intro tr
  have h0 : listingInv {} 0 := by
    constructor
    · omega
    · simp [EngineState.listingRemoteChanges]
  have hinv := engineRun_listingInv tr {} 0 h0
  obtain ⟨h1, h2⟩ := hinv
  refine ⟨h1, h2, ?_, ?_⟩
  · intro e hk
    obtain ⟨hle, hone, hzero⟩ := engineStep_char (engineRun {} 0 tr).1 e
    have hk1 : countListings (engineStep (engineRun {} 0 tr).1 e).2 = 1 := by
      omega
    obtain ⟨hlf, hlt⟩ := hone hk1
    refine ⟨?_, hlt⟩
    have hn1 : (engineRun {} 0 tr).2 ≠ 1 := by
      intro hh
      rw [h2.mpr hh] at hlf
      exact absurd hlf (by simp)
    omega
  · intro e hl hf
    exact engineStep_keeps_listing _ e hl hf

/-- Closed instance of `c9_remote_listing_coalesced`: one completed apply
that needs a listing schedules it and raises the flag, and a re-entrant
trigger from the resulting state schedules nothing. -/
theorem c9_witness :
    (engineRun {} 0 [EngineEvent.applyDone 0 5 SyncStatusCode.ok true
        SyncAction.added true]).2 = 1 ∧
    0 < countListings (engineStep (engineRun {} 0 []).1
        (EngineEvent.applyDone 0 5 SyncStatusCode.ok true SyncAction.added true)).2 ∧
    (engineRun {} 0 []).2 = 0 ∧
    (engineStep (engineRun {} 0 []).1
        (EngineEvent.applyDone 0 5 SyncStatusCode.ok true SyncAction.added
          true)).1.listingRemoteChanges = true ∧
    (engineStep (engineRun {} 0 [EngineEvent.applyDone 0 5 SyncStatusCode.ok
        true SyncAction.added true]).1 EngineEvent.notification
      ).1.listingRemoteChanges = true :=
  ⟨by decide, by decide,
    ((c9_remote_listing_coalesced []).2.2.1
      (EngineEvent.applyDone 0 5 SyncStatusCode.ok true SyncAction.added true)
      (by decide)).1,
    ((c9_remote_listing_coalesced []).2.2.1
      (EngineEvent.applyDone 0 5 SyncStatusCode.ok true SyncAction.added true)
      (by decide)).2,
    (c9_remote_listing_coalesced
        [EngineEvent.applyDone 0 5 SyncStatusCode.ok true SyncAction.added true]).2.2.2
      EngineEvent.notification (by decide) (fun st h => nomatch h)⟩

end DriveBackend
